import Mathlib

/-!
Shallow embedding of `qchem_inputgen` (files `src/qchem_inputgen/qchem.py`
and the `Molecule` data holder from `src/qchem_inputgen/xyz.py`), together
with theorems settling the claims about `QChemInputWriter.render`.

Python strings are modelled as `String`, Python `int` as `Int`, Python
`bool` as `Bool`, and atomic coordinates as `ℚ` (the claims evaluate the
fixed-point coordinate format only at exact decimal values, where the
rational model and IEEE doubles agree).  Fallible Python code — here, the
attribute access `opts.method`, which raises `AttributeError` because
`QChemOptions` declares no `method` field or property — is modelled with
`Except`.
-/

/-- A Python exception surfaced by the embedded code.  The only one this
module can raise is the `AttributeError` from reading a missing attribute. -/
inductive PyErr where
  | attributeError (name : String)
deriving Repr, DecidableEq

/-- `"".ljust`-style padding: Python's `f"{s:<{w}}"` — left-align `s` in a
field of width `w`, padding with spaces on the right (never truncating). -/
def padRight (s : String) (w : Nat) : String :=
  if s.length < w then s ++ String.mk (List.replicate (w - s.length) ' ') else s

/-- Python's right alignment `f"{s:>{w}}"`: pad with spaces on the left. -/
def padLeft (s : String) (w : Nat) : String :=
  if s.length < w then String.mk (List.replicate (w - s.length) ' ') ++ s else s

/-- Pad a digit string with leading zeros to width `w`. -/
def zeroPad (w : Nat) (s : String) : String :=
  if s.length < w then String.mk (List.replicate (w - s.length) '0') ++ s else s

/-- Python's fixed-point format `f"{x:.6f}"` on a coordinate, modelled over
`ℚ`: six digits after the decimal point, rounding half up (every coordinate
any claim evaluates is exact at six decimals, so the rounding mode is never
exercised). -/
def fixed6 (q : ℚ) : String :=
  let a : Nat := q.num.natAbs * 1000000
  let r : Nat := (2 * a + q.den) / (2 * q.den)
  let sign : String := if q < 0 then "-" else ""
  sign ++ toString (r / 1000000) ++ "." ++ zeroPad 6 (toString (r % 1000000))

/-- Python's `f"{x:12.6f}"`: `fixed6`, right-aligned in a 12-wide field. -/
def coordField (q : ℚ) : String :=
  padLeft (fixed6 q) 12

/-- Modelled from the spec: the repository's `Atom` value (one entry of
`Molecule.atoms`, unpacked in `qchem.py` as `sym, x, y, z`) comes from
`qchem_inputgen/xyz.py`, which is not among the provided sources.  Per the
spec's data model it is an element symbol plus three coordinates, immutable
once constructed. -/
structure Atom where
  symbol : String
  x : ℚ
  y : ℚ
  z : ℚ
deriving Repr, DecidableEq

/-- Modelled from the spec: the repository's `Molecule` class lives in
`qchem_inputgen/xyz.py`, which is not among the provided sources.  Per the
spec's data model it carries an integer net charge, a spin multiplicity,
and an ordered, order-significant sequence of atoms. -/
structure Molecule where
  charge : Int
  multiplicity : Int
  atoms : List Atom
deriving Repr, DecidableEq

/-- The `QChemOptions` frozen dataclass of `qchem.py` (field order and
types as in the source). -/
structure QChemOptions where
  jobtype : String
  unrestricted : Bool
  basis : String
  exchange : String
  scf_guess : String
  scf_convergence : Int
  scf_algorithm : String
  max_scf_cycles : Int
  spin_flip : Int
  cis_n_roots : Int
  cis_singlets : Bool
  cis_triplets : Bool
  cis_convergence : Int
  max_cis_cycles : Int
  include_comment : Bool
deriving Repr, DecidableEq

/-- The dataclass defaults of `QChemOptions`: `jobtype="SP"`,
`unrestricted=False`, `basis="6-31G*"`, `exchange="BHHLYP"`,
`scf_guess="CORE"`, `scf_convergence=10`, `scf_algorithm="DIIS"`,
`max_scf_cycles=100`, `spin_flip=2`, `cis_n_roots=4`, `cis_singlets=True`,
`cis_triplets=False`, `cis_convergence=8`, `max_cis_cycles=100`,
`include_comment=True`. -/
def defaultOptions : QChemOptions :=
  ⟨"SP", false, "6-31G*", "BHHLYP", "CORE", 10, "DIIS", 100, 2, 4, true,
    false, 8, 100, true⟩

/-- The attribute access `opts.method` performed by `render`.
`QChemOptions` declares no field, property or method named `method`
anywhere in the repository (the dataclass stores `exchange` instead), so in
Python this access raises
`AttributeError: 'QChemOptions' object has no attribute 'method'`. -/
def QChemOptions.methodAttr (_o : QChemOptions) : Except PyErr String :=
  .error (.attributeError "method")

namespace QChemInputWriter

/-- `QChemInputWriter._tf`: render a boolean as `"TRUE"` / `"FALSE"`. -/
def tf (x : Bool) : String :=
  if x then "TRUE" else "FALSE"

/-- `QChemInputWriter._kv`: aligned key/value line
`f"{key:<{width}} {value}"`.  Every call site in the source uses the
default `width=18`, passed explicitly here. -/
def kv (key value : String) (width : Nat) : String :=
  padRight key width ++ " " ++ value

/-- The title resolution of the `$comment` block
(`title if title else f"{opts.basis}/{opts.method} MRSF-TDDFT"`): Python
truthiness sends both a missing and an empty title to the auto-generated
branch, which reads the undefined attribute `opts.method`. -/
def resolvedTitle (o : QChemOptions) (title : Option String) :
    Except PyErr String :=
  match title with
  | some t =>
    if t = "" then
      do
        let m ← o.methodAttr
        pure (o.basis ++ "/" ++ m ++ " MRSF-TDDFT")
    else pure t
  | none =>
    do
      let m ← o.methodAttr
      pure (o.basis ++ "/" ++ m ++ " MRSF-TDDFT")

/-- The `$comment` block of `render` (lines 85–96 of `qchem.py`):
`"\n".join(["$comment", f"  1 {auto_title}", "  2", "$end", ""])`. -/
def commentBlock (o : QChemOptions) (title : Option String) :
    Except PyErr String :=
  do
    let t ← resolvedTitle o title
    pure (String.intercalate "\n"
      ["$comment", "  1 " ++ t, "  2", "$end", ""])

/-- One atom line of the `$molecule` block:
`f"{sym:<2s}  {x:12.6f}  {y:12.6f}  {z:12.6f}"`. -/
def atomLine (a : Atom) : String :=
  padRight a.symbol 2 ++ "  " ++ coordField a.x ++ "  " ++ coordField a.y
    ++ "  " ++ coordField a.z

/-- The `$molecule` block of `render` (lines 98–103 of `qchem.py`):
header, `f"{mol.charge} {mol.multiplicity}"`, one `atomLine` per atom in
sequence order, closing `$end`, then a trailing newline
(`"\n".join(mol_lines) + "\n"`). -/
def molBlock (mol : Molecule) : String :=
  String.intercalate "\n"
    (["$molecule", toString mol.charge ++ " " ++ toString mol.multiplicity]
      ++ mol.atoms.map atomLine ++ ["$end"]) ++ "\n"

/-- The `rem` line list of `render` (lines 105–123 of `qchem.py`) with the
value of the undefined attribute `opts.method` supplied as the argument
`m`: the fourteen `_kv` lines in source order, bracketed by `$rem`/`$end`. -/
def remLinesWith (o : QChemOptions) (m : String) : List String :=
    ["$rem",
     kv "JOBTYPE" o.jobtype 18,
     kv "UNRESTRICTED" (tf o.unrestricted) 18,
     kv "BASIS" o.basis 18,
     kv "METHOD" m 18,
     kv "SCF_GUESS" o.scf_guess 18,
     kv "SCF_CONVERGENCE" (toString o.scf_convergence) 18,
     kv "SCF_ALGORITHM" o.scf_algorithm 18,
     kv "MAX_SCF_CYCLES" (toString o.max_scf_cycles) 18,
     kv "SPIN_FLIP" (toString o.spin_flip) 18,
     kv "CIS_N_ROOTS" (toString o.cis_n_roots) 18,
     kv "CIS_SINGLETS" (tf o.cis_singlets) 18,
     kv "CIS_TRIPLETS" (tf o.cis_triplets) 18,
     kv "CIS_CONVERGENCE" (toString o.cis_convergence) 18,
     kv "MAX_CIS_CYCLES" (toString o.max_cis_cycles) 18,
     "$end"]

/-- The `$rem` block text: `"\n".join(rem) + "\n"` (line 124). -/
def remBlockWith (o : QChemOptions) (m : String) : String :=
  String.intercalate "\n" (remLinesWith o m) ++ "\n"

/-- The `$rem` block as the source builds it: it reads `opts.method`
(raising `AttributeError`) for the `METHOD` line. -/
def remBlock (o : QChemOptions) : Except PyErr String :=
  do
    let m ← o.methodAttr
    pure (remBlockWith o m)

/-- `QChemInputWriter.render` (lines 70–126 of `qchem.py`): optionally the
comment block, then the molecule block, then the `$rem` block, joined by
`"\n"`.  The construction order matches the source: the comment block (and
its possible `AttributeError`) comes first, the `$rem` block last. -/
def render (mol : Molecule) (o : QChemOptions) (title : Option String) :
    Except PyErr String :=
  do
    let commentBlocks ←
      if o.include_comment then
        do
          let c ← commentBlock o title
          pure [c]
      else pure ([] : List String)
    let r ← remBlock o
    pure (String.intercalate "\n" (commentBlocks ++ [molBlock mol, r]))

end QChemInputWriter

set_option maxRecDepth 2000

/-- The beryllium molecule of the repository's test fixture `make_be`:
one atom `"Be"` at the origin, charge 0, multiplicity 3. -/
def beMol : Molecule :=
  ⟨0, 3, [⟨"Be", 0, 0, 0⟩]⟩

/-- A distinctive all-non-default options value, used to exhibit the
`$rem`-block key order. -/
def opts4 : QChemOptions :=
  ⟨"OPT", true, "cc-pVDZ", "B3LYP", "SAD", 8, "GDM", 50, 1, 6, false, true,
    7, 60, true⟩

/-- The dataclass defaults with `cis_singlets=False, cis_triplets=True`
(the toggle of the repository's `test_boolean_toggles`). -/
def opts6 : QChemOptions :=
  ⟨"SP", false, "6-31G*", "BHHLYP", "CORE", 10, "DIIS", 100, 2, 4, false,
    true, 8, 100, true⟩

/-- The dataclass defaults with `include_comment=False`. -/
def optsNC : QChemOptions :=
  ⟨"SP", false, "6-31G*", "BHHLYP", "CORE", 10, "DIIS", 100, 2, 4, true,
    false, 8, 100, false⟩

/-- A two-atom molecule (charge −1, multiplicity 2) used to exhibit the
per-atom lines of the molecule block and their order. -/
def mol9 : Molecule :=
  ⟨-1, 2, [⟨"H", 0, mkRat 1 2, mkRat 3 2⟩, ⟨"He", mkRat (-3) 2, 0, mkRat 1 4⟩]⟩

/-- C1: the claim says `render` returns a text value and raises no failure
of its own.  In fact `render` reads the undefined attribute `opts.method`
unconditionally (in the `METHOD` settings line, and additionally in the
auto-generated title when no title is supplied), so every call raises
`AttributeError` and no text is ever returned — shown here on the
repository's own Be test fixture both with the test's explicit title and
with the title omitted. -/
theorem renderRaisesOnAnyInput :
    QChemInputWriter.render beMol defaultOptions
        (some "Be/6-31G*/BHHLYP MRSF-TDDFT")
      = .error (.attributeError "method")
    ∧ QChemInputWriter.render beMol defaultOptions none
      = .error (.attributeError "method") :=
  ⟨rfl, rfl⟩

/-- C2: the claim says the returned text contains `$comment`, `$molecule`
and `$rem`, each opened and closed once, in order.  The code returns no
text at all: on a valid molecule with default options and a caller title
it raises `AttributeError` at the `$rem` block's `opts.method` read, so no
rendered text with the three section markers exists. -/
theorem renderYieldsNoSections :
    QChemInputWriter.render ⟨1, 1, [⟨"H", 0, 0, 0⟩]⟩ defaultOptions
        (some "x")
      = .error (.attributeError "method") :=
  rfl

/-- C3: the claim (with the repository's docstring template and its test
`test_exchange_keyword_used`) expects a settings line
`"EXCHANGE           BHHLYP"`.  Rendering raises `AttributeError`; and
even the `$rem` lines the code builds (shown with the undefined
`opts.method` charitably supplied as the `exchange` value) contain a
`METHOD` line, never an `EXCHANGE` line. -/
theorem remUsesMethodNotExchange :
    QChemInputWriter.render beMol defaultOptions (some "t3")
      = .error (.attributeError "method")
    ∧ (QChemInputWriter.remLinesWith defaultOptions "BHHLYP").contains
        "EXCHANGE           BHHLYP" = false
    ∧ (QChemInputWriter.remLinesWith defaultOptions "BHHLYP").contains
        "METHOD             BHHLYP" = true :=
  ⟨rfl, by decide, by decide⟩

/-- C4: the claim describes the settings section's fixed key order.  The
code raises `AttributeError` before returning any settings section; the
`$rem` block it builds (undefined `opts.method` supplied as `"B3LYP"`)
does consist of one line per setting in the claimed fixed order, as
exhibited on an all-non-default options value. -/
theorem remKeyOrderAtConcreteOptions :
    QChemInputWriter.render beMol opts4 (some "t4")
      = .error (.attributeError "method")
    ∧ QChemInputWriter.remLinesWith opts4 "B3LYP"
      = ["$rem",
         "JOBTYPE            OPT",
         "UNRESTRICTED       TRUE",
         "BASIS              cc-pVDZ",
         "METHOD             B3LYP",
         "SCF_GUESS          SAD",
         "SCF_CONVERGENCE    8",
         "SCF_ALGORITHM      GDM",
         "MAX_SCF_CYCLES     50",
         "SPIN_FLIP          1",
         "CIS_N_ROOTS        6",
         "CIS_SINGLETS       FALSE",
         "CIS_TRIPLETS       TRUE",
         "CIS_CONVERGENCE    7",
         "MAX_CIS_CYCLES     60",
         "$end"] :=
  ⟨rfl, by decide⟩

/-- C5 counterexample: the claim's exact molecule-section string is false
on the code.  `render` on the Be fixture with default options raises
`AttributeError` (so there is no output at all), and moreover the molecule
block the code builds does not match the claimed string: the atom line's
separators are two spaces before each 12-wide right-aligned coordinate
field, giving six spaces between columns, not the claimed three/four. -/
theorem molSectionSpacingClaimFalse :
    QChemInputWriter.render beMol defaultOptions none
      = .error (.attributeError "method")
    ∧ QChemInputWriter.molBlock beMol
      ≠ "$molecule\n0 3\nBe   0.000000    0.000000    0.000000\n$end\n" :=
  ⟨rfl, by decide⟩

/-- C5 amended: `render` on the Be fixture raises `AttributeError`
(undefined `opts.method`) before returning; the `$molecule` block the code
internally builds for this input is exactly
`"$molecule\n0 3\nBe      0.000000      0.000000      0.000000\n$end\n"` —
2-char left-aligned symbol field, then for each coordinate a two-space
separator and a 12-wide right-aligned `%.6f` field, so six spaces between
columns. -/
theorem molSectionSpacingActual :
    QChemInputWriter.molBlock beMol
      = "$molecule\n0 3\nBe      0.000000      0.000000      0.000000\n$end\n" :=
  by decide

/-- C6: booleans are rendered by `_tf` as exactly `"TRUE"`/`"FALSE"`, and
the `_kv` lines for `cis_singlets=False, cis_triplets=True` are exactly
the claimed strings; but `render` itself, which the claim says yields
those settings lines, raises `AttributeError` on `opts.method` and emits
nothing. -/
theorem booleanTokensAndRenderFailure :
    QChemInputWriter.tf true = "TRUE"
    ∧ QChemInputWriter.tf false = "FALSE"
    ∧ QChemInputWriter.kv "CIS_SINGLETS" (QChemInputWriter.tf
        opts6.cis_singlets) 18 = "CIS_SINGLETS       FALSE"
    ∧ QChemInputWriter.kv "CIS_TRIPLETS" (QChemInputWriter.tf
        opts6.cis_triplets) 18 = "CIS_TRIPLETS       TRUE"
    ∧ QChemInputWriter.render beMol opts6 none
      = .error (.attributeError "method") :=
  ⟨rfl, rfl, by decide, by decide, rfl⟩

/-- C7: with the comment flag on and the title omitted, the auto-title
branch evaluates `f"{opts.basis}/{opts.method} MRSF-TDDFT"` and raises
`AttributeError` on `opts.method` instead of producing a title; a
caller-supplied title is used verbatim in the comment block (whose
construction then succeeds), though the overall `render` still fails later
at the `$rem` block. -/
theorem titleResolutionAndRenderFailure :
    QChemInputWriter.commentBlock defaultOptions none
      = .error (.attributeError "method")
    ∧ QChemInputWriter.commentBlock defaultOptions (some "My title")
      = .ok "$comment\n  1 My title\n  2\n$end\n"
    ∧ QChemInputWriter.render mol9 defaultOptions none
      = .error (.attributeError "method") :=
  ⟨rfl, rfl, rfl⟩

/-- C8: `render` is deterministic — its entire behaviour, including the
`AttributeError` it raises, is a pure function of the molecule, the
options and the optional title; the embedding reads no other state, so
two calls on identical inputs give identical results. -/
theorem renderDeterministic :
    ∀ (m : Molecule) (o : QChemOptions) (t : Option String),
      QChemInputWriter.render m o t = QChemInputWriter.render m o t :=
  fun _ _ _ => rfl

/-- C9: the claim says the molecule section has one line per atom, in the
molecule's order, after a `"<charge> <multiplicity>"` line.  `render`
raises `AttributeError` and returns no text; the `$molecule` block the
code builds (`molBlock`: the header, the charge/multiplicity line, one
`atomLine` per atom via `List.map`, then `$end`) does satisfy the claim,
as exhibited on a two-atom molecule whose H-before-He input order is
preserved in the mapped lines. -/
theorem atomOrderPreservedInMolBlock :
    QChemInputWriter.render mol9 defaultOptions (some "t9")
      = .error (.attributeError "method")
    ∧ toString mol9.charge ++ " " ++ toString mol9.multiplicity = "-1 2"
    ∧ mol9.atoms.map QChemInputWriter.atomLine
      = ["H       0.000000      0.500000      1.500000",
         "He     -1.500000      0.000000      0.250000"] :=
  ⟨rfl, by decide, by decide⟩

/-- C10: when `include_comment` is false the comment block — the only
place the `title` parameter is read — is skipped, so the result of
`render` does not depend on the title argument. -/
theorem renderTitleNoninterference :
    ∀ (m : Molecule) (o : QChemOptions) (t₁ t₂ : Option String),
      o.include_comment = false →
      QChemInputWriter.render m o t₁ = QChemInputWriter.render m o t₂ := by
  intro m o t₁ t₂ h
  simp [QChemInputWriter.render, h]

/-- Witness for C10 at a concrete input: default options with the comment
flag cleared, one call without a title and one with. -/
theorem renderTitleNoninterferenceWitness :
    optsNC.include_comment = false
    ∧ QChemInputWriter.render beMol optsNC none
      = QChemInputWriter.render beMol optsNC (some "ignored") :=
  ⟨rfl, renderTitleNoninterference beMol optsNC none (some "ignored") rfl⟩
